import Mathlib

/-!
# Verification of the crowler `dagger` interactive console

Shallow embedding of the `crowler.dagger` package:

* `crowler/dagger/command_cache.py` — `Command`, `Command.execute`, `CommandCache`;
* `crowler/dagger/dagger.py` — the console loop `activate` and the quit tokens;
* `dester/dagger/command_registry.py` — the `ActionRegistry` dict
  (the copy imported by `dagger.py`);
* `crowler/dagger/module_importer.py` — `create_module_import_string`,
  `get_all_import_strings`.

Python's dynamic `eval`/`exec` is abstracted as an oracle `PyEnv`:
`eval` either raises (an `Except.error` carrying the printed message of the
exception) or returns a value together with the possibly-mutated namespace;
`exec` either raises or returns the mutated namespace; `truthy` models
Python truthiness (`if result:`) and `toStr` models `str` as used by `print`.
The namespace type `NS` and value type `V` are parameters, so theorems about
the loop hold for any such oracle; concrete test instances are given below
for evaluating the theorems on closed inputs.

Filesystem paths are modelled as `/`-separated strings that are already in
`os.path.normpath` normal form (the importer normalises its inputs before
the code under study manipulates them), and `os.path.samefile` is modelled
as equality of those normalised paths.  A directory tree is a `DirTree`;
`walkTree` models `os.walk` (top-down, with in-place pruning of the ignore
directories, visiting a directory's files before its subdirectories).
-/

namespace Crowler

/-! ## Evaluation oracle -/

/-- Abstraction of Python `eval`/`exec` against a namespace of type `NS`
producing values of type `V`. -/
structure PyEnv (V NS : Type) where
  eval : String → NS → Except String (V × NS)
  exec : String → NS → Except String NS
  truthy : V → Bool
  toStr : V → String

/-! ## `command_cache.py` -/

/-- One submitted line plus its tri-state validity
(`none` = unknown, `some true` = succeeded, `some false` = failed). -/
structure Command where
  command : String
  valid : Option Bool
deriving DecidableEq, Repr

/-- `Command.execute(self, current_vars)`: try `eval`; on success print the
result when truthy; on failure fall back to `exec`; if that also raises,
mark the command failed and print the error.  Returns the command with its
final validity, the resulting namespace, and the lines printed. -/
def Command.execute {V NS : Type} (env : PyEnv V NS) (c : Command) (current_vars : NS) :
    Command × NS × List String :=
  match env.eval c.command current_vars with
  | Except.ok (result, ns) =>
      ({ c with valid := some true }, ns,
        if env.truthy result then [env.toStr result] else [])
  | Except.error _ =>
      match env.exec c.command current_vars with
      | Except.ok ns => ({ c with valid := some true }, ns, [])
      | Except.error e => ({ c with valid := some false }, current_vars, [e])

/-- `CommandCache`: ordered log of executed commands. -/
structure CommandCache where
  commands : List Command
deriving DecidableEq, Repr

/-- `CommandCache.add`: append at the end. -/
def CommandCache.add (cc : CommandCache) (c : Command) : CommandCache :=
  { commands := cc.commands ++ [c] }

/-- `CommandCache.__str__` with the default prefix `"\t"`;
`Command.__str__` is just the command text. -/
def CommandCache.render (cc : CommandCache) : String :=
  "Currently stored commands:\n\t" ++
    String.intercalate "\n\t" (cc.commands.map (fun c => c.command))

/-! ## `command_registry.py` -/

/-- Result of invoking a registered zero-argument action: it either raises
(`Except.error`, which the loop does not catch) or returns normally, having
printed some lines. -/
abbrev ActionResult := Except String (List String)

/-- The `ActionRegistry` dict: association list in insertion order. -/
abbrev ActionRegistry := List (String × ActionResult)

/-- `ActionRegistry.__str__` with the default prefix `"\t"`: the registered
names, one per line. -/
def ActionRegistry.render (reg : ActionRegistry) : String :=
  "Currently stored actions:\n\t" ++
    String.intercalate "\n\t" (reg.map (fun p => p.1))

/-! ## `dagger.py` — the console loop -/

/-- `quit_commands = [":q", "quit", "exit"]`. -/
def quit_commands : List String := [":q", "quit", "exit"]

/-- How a run of the console loop over a finite list of submitted lines
ends: `terminated` = a quit token was submitted (the `break`);
`aborted e` = a registered action raised and the exception propagated out
of the loop; `exhausted` = the supplied input lines ran out with the loop
still running (in the real program it would block on `input()`). -/
inductive SessionOutcome where
  | terminated : SessionOutcome
  | aborted : String → SessionOutcome
  | exhausted : SessionOutcome
deriving DecidableEq, Repr

/-- The state threaded through the loop: the session namespace
(`current_vars`), the command cache, and everything printed so far. -/
structure LoopState (V NS : Type) where
  ns : NS
  cache : CommandCache
  output : List String
deriving DecidableEq, Repr

/-- The `while True:` body of `activate`, run over a finite list of input
lines.  Branch order follows the source: quit tokens, the `"cache"` literal,
the `"registry"` literal, registered actions, and finally `Command`
execution followed by `command_cache.add(command)`. -/
def runLoop {V NS : Type} (env : PyEnv V NS) (reg : ActionRegistry) :
    LoopState V NS → List String → SessionOutcome × LoopState V NS
  | st, [] => (SessionOutcome.exhausted, st)
  | st, command_str :: rest =>
    if command_str ∈ quit_commands then
      (SessionOutcome.terminated, st)
    else if command_str = "cache" then
      runLoop env reg { st with output := st.output ++ [st.cache.render] } rest
    else if command_str = "registry" then
      runLoop env reg { st with output := st.output ++ [ActionRegistry.render reg] } rest
    else
      match reg.lookup command_str with
      | some (Except.error e) => (SessionOutcome.aborted e, st)
      | some (Except.ok out) =>
          runLoop env reg { st with output := st.output ++ out } rest
      | none =>
          let r := Command.execute env { command := command_str, valid := none } st.ns
          runLoop env reg
            { ns := r.2.1, cache := st.cache.add r.1, output := st.output ++ r.2.2 } rest

/-- `activate()`: copy the caller's globals into `current_vars`, print the
banner, create an empty cache and run the loop.  The third component of the
result is the caller's globals after the session: the session works on a
copy, so they are returned unchanged. -/
def activate {V NS : Type} (env : PyEnv V NS) (reg : ActionRegistry)
    (caller_globals : NS) (caller_filename : String) (caller_lineno : Nat)
    (inputs : List String) : SessionOutcome × LoopState V NS × NS :=
  let current_vars := caller_globals
  let banner := "Dagger debug session on:\n\t" ++ caller_filename ++ " line: " ++
    toString caller_lineno ++ "\nWrite either " ++
    String.intercalate ", " quit_commands ++ " to exit debug mode."
  let command_cache : CommandCache := { commands := [] }
  let st0 : LoopState V NS := { ns := current_vars, cache := command_cache, output := [banner] }
  let r := runLoop env reg st0 inputs
  (r.1, r.2, caller_globals)

/-! ## `module_importer.py` -/

/-- `ignore_directories = ["venv", "env"]`. -/
def ignore_directories : List String := ["venv", "env"]

/-- Python `str.split(sep)` for a single-character separator, over the
character list of the string: `"a/b".split("/") == ["a","b"]`,
`"".split("/") == [""]`. -/
def splitCharsOn (sep : Char) : List Char → List (List Char)
  | [] => [[]]
  | c :: cs =>
    match splitCharsOn sep cs with
    | [] => [[]]
    | g :: gs => if c = sep then [] :: g :: gs else (c :: g) :: gs

/-- Python `str.split` with a one-character separator on a `String`. -/
def splitStrOn (sep : Char) (s : String) : List String :=
  (splitCharsOn sep s.data).map String.mk

/-- Python `name.replace(".py", "")`: remove every non-overlapping
occurrence of `".py"`, scanning left to right. -/
def stripPyChars : List Char → List Char
  | '.' :: 'p' :: 'y' :: rest => stripPyChars rest
  | c :: rest => c :: stripPyChars rest
  | [] => []

/-- The lambda inside `create_module_import_string`:
`name.replace(".py", "") if ".py" in name else name`. -/
def stripPy (name : String) : String := String.mk (stripPyChars name.data)

/-- Python `filename.endswith(".py")`. -/
def endsWithPy (f : String) : Bool :=
  match f.data.reverse with
  | 'y' :: 'p' :: '.' :: _ => true
  | _ => false

/-- Python `filename.startswith("__")`. -/
def startsWithUnderscores (f : String) : Bool :=
  match f.data with
  | '_' :: '_' :: _ => true
  | _ => false

/-- `os.path.dirname` on a normalised `/`-separated path. -/
def dirname (p : String) : String :=
  String.intercalate "/" (splitStrOn '/' p).dropLast

/-- `os.path.basename` on a normalised `/`-separated path. -/
def basename (p : String) : String :=
  (splitStrOn '/' p).getLastD ""

/-- `create_module_import_string(package_name, module_path)`: split the
normalised path at the separator, strip `".py"` from every segment, and if
the package name occurs, join the segments after its first occurrence with
dots; otherwise return nothing (`return  # Raise error here`). -/
def create_module_import_string (package_name : String) (module_path : String) :
    Option String :=
  let path_list := (splitStrOn '/' module_path).map stripPy
  if package_name ∈ path_list then
    some (String.intercalate "." (path_list.drop (path_list.indexOf package_name + 1)))
  else
    none

/-- A directory: its name, its files (in listing order) and its
subdirectories (in listing order). -/
inductive DirTree where
  | node (dirname : String) (files : List String) (subdirs : List DirTree)

/-- The name of a directory. -/
def DirTree.name : DirTree → String
  | DirTree.node n _ _ => n

mutual
/-- `os.walk(dir_path)` (top-down): yield this directory's `(root, files)`,
prune subdirectories whose name is in `ignore_directories`, then recurse in
order.  `root` is the path of the directory being visited. -/
def walkTree (root : String) : DirTree → List (String × List String)
  | DirTree.node _ files subs => (root, files) :: walkForest root subs

/-- Walk the surviving subdirectories of a directory at path `root`. -/
def walkForest (root : String) : List DirTree → List (String × List String)
  | [] => []
  | t :: ts =>
      (if t.name ∈ ignore_directories then [] else walkTree (root ++ "/" ++ t.name) t)
        ++ walkForest root ts
end

/-- `get_all_import_strings(dir_path, called_from_module)`: walk the tree;
keep files ending in `".py"` and not starting with `"__"`; skip the file
the call originated from; for every other kept file append the result of
`create_module_import_string` — which is `none` when the package name does
not occur in the file's path. -/
def get_all_import_strings (dir_path : String) (tree : DirTree)
    (called_from_module : String) : List (Option String) :=
  let package_name := basename (dirname called_from_module)
  (walkTree dir_path tree).flatMap (fun rootFiles =>
    (rootFiles.2.filter
        (fun f => endsWithPy f && !(startsWithUnderscores f))).filterMap
      (fun f =>
        let file_path := rootFiles.1 ++ "/" ++ f
        if file_path = called_from_module then none
        else some (create_module_import_string package_name file_path)))

/-! ## Concrete instances for evaluating the theorems -/

/-- A concrete namespace for exercising the loop: string-valued variables. -/
abbrev TestNS := List (String × String)

/-- Concrete `eval`: a line that is a bound variable name evaluates to its
value (leaving the namespace untouched); anything else raises. -/
def testEval (s : String) (ns : TestNS) : Except String (String × TestNS) :=
  match ns.lookup s with
  | some v => Except.ok (v, ns)
  | none => Except.error ("invalid expression: " ++ s)

/-- Concrete `exec`: a line of the shape `x=v` binds `x` to the string `v`;
anything else raises with a Python-style message. -/
def testExec (s : String) (ns : TestNS) : Except String TestNS :=
  match splitStrOn '=' s with
  | [x, v] => Except.ok ((x, v) :: ns)
  | _ => Except.error ("name " ++ s ++ " is not defined")

/-- The concrete oracle: truthiness is non-emptiness of the string value
(as in Python), and `str` is the identity. -/
def testEnv : PyEnv String TestNS :=
  { eval := testEval, exec := testExec,
    truthy := fun v => !v.data.isEmpty, toStr := fun v => v }

/-- An empty initial loop state over the concrete namespace. -/
def testState : LoopState String TestNS :=
  { ns := [], cache := { commands := [] }, output := [] }

/-! ## Spec-side definitions -/

/-- The submitted lines that reach the `Command` branch of the loop (the
session transcript), in submission order: a quit token stops the session,
the `"cache"`/`"registry"` literals and registered action names are passed
over, and a raising registered action cuts the session short.  Note this
does not depend on the evaluation oracle. -/
def recordedLines (reg : ActionRegistry) : List String → List String
  | [] => []
  | l :: rest =>
    if l ∈ quit_commands then []
    else if l = "cache" then recordedLines reg rest
    else if l = "registry" then recordedLines reg rest
    else
      match reg.lookup l with
      | some (Except.error _) => []
      | some (Except.ok _) => recordedLines reg rest
      | none => l :: recordedLines reg rest

/-- The commands a run of the loop appends to the cache, given the
namespace it starts from. -/
def newCommands {V NS : Type} (env : PyEnv V NS) (reg : ActionRegistry) :
    NS → List String → List Command
  | _, [] => []
  | ns, l :: rest =>
    if l ∈ quit_commands then []
    else if l = "cache" then newCommands env reg ns rest
    else if l = "registry" then newCommands env reg ns rest
    else
      match reg.lookup l with
      | some (Except.error _) => []
      | some (Except.ok _) => newCommands env reg ns rest
      | none =>
        let r := Command.execute env { command := l, valid := none } ns
        r.1 :: newCommands env reg r.2.1 rest

/-- The files the walk keeps (source suffix, no double-underscore
package-marker prefix, origin file excluded), as full paths in walk
order. -/
def eligible_files (dir_path : String) (tree : DirTree) (called_from_module : String) :
    List String :=
  (walkTree dir_path tree).flatMap (fun rootFiles =>
    (rootFiles.2.filter
        (fun f => endsWithPy f && !(startsWithUnderscores f))).filterMap
      (fun f =>
        let file_path := rootFiles.1 ++ "/" ++ f
        if file_path = called_from_module then none else some file_path))

/-- The directory tree of the worked discovery example:
`pkg/{a.py, b.py, sub/c.py, venv/d.py, __init__.py}`. -/
def pkgTree : DirTree :=
  DirTree.node "pkg" ["a.py", "b.py", "__init__.py"]
    [DirTree.node "sub" ["c.py"] [], DirTree.node "venv" ["d.py"] []]

/-- A directory outside the origin's package: its files' paths do not
contain the package name. -/
def otherTree : DirTree := DirTree.node "other" ["m.py"] []

/-- The path segments strictly after the first occurrence of `pn`. -/
def segmentsAfterFirst (pn : String) : List String → Option (List String)
  | [] => none
  | s :: rest => if s = pn then some rest else segmentsAfterFirst pn rest

/-- The dotted import path computed relative to the FIRST (outermost)
path segment matching the package name: split, strip the source suffix
from every segment, keep what follows the first match, join with dots. -/
def importStringSpecFirst (pn path : String) : Option String :=
  (segmentsAfterFirst pn ((splitStrOn '/' path).map stripPy)).map
    (String.intercalate ".")

/-- The path segments strictly after the last occurrence of `pn`. -/
def segmentsAfterLast (pn : String) : List String → Option (List String)
  | [] => none
  | s :: rest =>
    match segmentsAfterLast pn rest with
    | some r => some r
    | none => if s = pn then some rest else none

/-- The dotted import path as the spec words it: relative to the NEAREST
(innermost) ancestor directory matching the package name. -/
def importStringSpecNearest (pn path : String) : Option String :=
  (segmentsAfterLast pn ((splitStrOn '/' path).map stripPy)).map
    (String.intercalate ".")

/-! ## Helper lemmas about `Command.execute` -/

/-- Executing a command never changes its text. -/
theorem execute_command_text {V NS : Type} (env : PyEnv V NS) (c : Command) (ns : NS) :
    (Command.execute env c ns).1.command = c.command := by
  unfold Command.execute
  rcases h : env.eval c.command ns with e | ⟨v, ns'⟩
  · rcases h2 : env.exec c.command ns with e2 | ns2 <;> simp
  · simp

/-- `Command.execute` when evaluation succeeds. -/
theorem execute_eval_ok {V NS : Type} (env : PyEnv V NS) (c : Command) (ns : NS)
    (v : V) (ns' : NS) (h : env.eval c.command ns = Except.ok (v, ns')) :
    Command.execute env c ns =
      ({ c with valid := some true }, ns',
        if env.truthy v then [env.toStr v] else []) := by
  unfold Command.execute
  rw [h]

/-- `Command.execute` when evaluation raises but execution succeeds. -/
theorem execute_fallback_ok {V NS : Type} (env : PyEnv V NS) (c : Command) (ns : NS)
    (e : String) (ns' : NS)
    (h1 : env.eval c.command ns = Except.error e)
    (h2 : env.exec c.command ns = Except.ok ns') :
    Command.execute env c ns = ({ c with valid := some true }, ns', []) := by
  unfold Command.execute
  rw [h1, h2]

/-- `Command.execute` when both tiers raise. -/
theorem execute_both_raise {V NS : Type} (env : PyEnv V NS) (c : Command) (ns : NS)
    (e1 e2 : String)
    (h1 : env.eval c.command ns = Except.error e1)
    (h2 : env.exec c.command ns = Except.error e2) :
    Command.execute env c ns = ({ c with valid := some false }, ns, [e2]) := by
  unfold Command.execute
  rw [h1, h2]

/-! ## Helper lemmas about `runLoop` -/

/-- Stepping the loop on a quit token. -/
theorem runLoop_quit_step {V NS : Type} (env : PyEnv V NS) (reg : ActionRegistry)
    (st : LoopState V NS) (q : String) (rest : List String) (hq : q ∈ quit_commands) :
    runLoop env reg st (q :: rest) = (SessionOutcome.terminated, st) := by
  simp only [runLoop]
  rw [if_pos hq]

/-- Stepping the loop on a line that reaches the `Command` branch. -/
theorem runLoop_command_step {V NS : Type} (env : PyEnv V NS) (reg : ActionRegistry)
    (st : LoopState V NS) (l : String) (rest : List String)
    (hq : l ∉ quit_commands) (hc : l ≠ "cache") (hr : l ≠ "registry")
    (hl : reg.lookup l = none) :
    runLoop env reg st (l :: rest) =
      runLoop env reg
        { ns := (Command.execute env { command := l, valid := none } st.ns).2.1,
          cache := st.cache.add (Command.execute env { command := l, valid := none } st.ns).1,
          output := st.output ++ (Command.execute env { command := l, valid := none } st.ns).2.2 }
        rest := by
  simp only [runLoop]
  rw [if_neg hq, if_neg hc, if_neg hr, hl]

/-- Stepping the loop on a command whose evaluation yields a truthy value:
print it, record success, thread the namespace returned by evaluation. -/
theorem runLoop_step_eval_truthy {V NS : Type} (env : PyEnv V NS) (reg : ActionRegistry)
    (st : LoopState V NS) (l : String) (rest : List String) (v : V) (ns' : NS)
    (hq : l ∉ quit_commands) (hc : l ≠ "cache") (hr : l ≠ "registry")
    (hl : reg.lookup l = none)
    (he : env.eval l st.ns = Except.ok (v, ns')) (ht : env.truthy v = true) :
    runLoop env reg st (l :: rest) =
      runLoop env reg
        { ns := ns', cache := st.cache.add { command := l, valid := some true },
          output := st.output ++ [env.toStr v] } rest := by
  rw [runLoop_command_step env reg st l rest hq hc hr hl,
    execute_eval_ok env _ st.ns v ns' he]
  simp [ht]

/-- Stepping the loop on a command whose evaluation yields a falsy value:
print nothing, still record success. -/
theorem runLoop_step_eval_falsy {V NS : Type} (env : PyEnv V NS) (reg : ActionRegistry)
    (st : LoopState V NS) (l : String) (rest : List String) (v : V) (ns' : NS)
    (hq : l ∉ quit_commands) (hc : l ≠ "cache") (hr : l ≠ "registry")
    (hl : reg.lookup l = none)
    (he : env.eval l st.ns = Except.ok (v, ns')) (ht : env.truthy v = false) :
    runLoop env reg st (l :: rest) =
      runLoop env reg
        { ns := ns', cache := st.cache.add { command := l, valid := some true },
          output := st.output } rest := by
  rw [runLoop_command_step env reg st l rest hq hc hr hl,
    execute_eval_ok env _ st.ns v ns' he]
  simp [ht]

/-- Stepping the loop on a command where evaluation raises but the fallback
execution succeeds: record success and thread the mutated namespace. -/
theorem runLoop_step_exec_ok {V NS : Type} (env : PyEnv V NS) (reg : ActionRegistry)
    (st : LoopState V NS) (l : String) (rest : List String) (e : String) (ns' : NS)
    (hq : l ∉ quit_commands) (hc : l ≠ "cache") (hr : l ≠ "registry")
    (hl : reg.lookup l = none)
    (h1 : env.eval l st.ns = Except.error e) (h2 : env.exec l st.ns = Except.ok ns') :
    runLoop env reg st (l :: rest) =
      runLoop env reg
        { ns := ns', cache := st.cache.add { command := l, valid := some true },
          output := st.output } rest := by
  rw [runLoop_command_step env reg st l rest hq hc hr hl,
    execute_fallback_ok env _ st.ns e ns' h1 h2]
  simp

/-- Stepping the loop on a command where both tiers raise: mark failed,
print the error, keep the namespace, and continue. -/
theorem runLoop_step_both_raise {V NS : Type} (env : PyEnv V NS) (reg : ActionRegistry)
    (st : LoopState V NS) (l : String) (rest : List String) (e1 e2 : String)
    (hq : l ∉ quit_commands) (hc : l ≠ "cache") (hr : l ≠ "registry")
    (hl : reg.lookup l = none)
    (h1 : env.eval l st.ns = Except.error e1) (h2 : env.exec l st.ns = Except.error e2) :
    runLoop env reg st (l :: rest) =
      runLoop env reg
        { ns := st.ns, cache := st.cache.add { command := l, valid := some false },
          output := st.output ++ [e2] } rest := by
  rw [runLoop_command_step env reg st l rest hq hc hr hl,
    execute_both_raise env _ st.ns e1 e2 h1 h2]

/-- A run leaves the starting cache as a prefix and appends exactly
`newCommands`. -/
theorem runLoop_cache_eq {V NS : Type} (env : PyEnv V NS) (reg : ActionRegistry) :
    ∀ (inputs : List String) (st : LoopState V NS),
      (runLoop env reg st inputs).2.cache.commands =
        st.cache.commands ++ newCommands env reg st.ns inputs := by
  intro inputs
  induction inputs with
  | nil => intro st; simp [runLoop, newCommands]
  | cons l rest ih =>
    intro st
    simp only [runLoop, newCommands]
    by_cases hq : l ∈ quit_commands
    · rw [if_pos hq, if_pos hq]; simp
    · rw [if_neg hq, if_neg hq]
      by_cases hc : l = "cache"
      · rw [if_pos hc, if_pos hc]; exact ih _
      · rw [if_neg hc, if_neg hc]
        by_cases hr : l = "registry"
        · rw [if_pos hr, if_pos hr]; exact ih _
        · rw [if_neg hr, if_neg hr]
          rcases hl : reg.lookup l with _ | a
          · simp only [hl]
            rw [ih]
            simp [CommandCache.add]
          · rcases a with e | out <;> simp only [hl]
            · simp
            · exact ih _

/-- The texts of the appended commands are exactly the recorded lines. -/
theorem newCommands_texts {V NS : Type} (env : PyEnv V NS) (reg : ActionRegistry) :
    ∀ (inputs : List String) (ns : NS),
      (newCommands env reg ns inputs).map Command.command = recordedLines reg inputs := by
  intro inputs
  induction inputs with
  | nil => intro ns; simp [newCommands, recordedLines]
  | cons l rest ih =>
    intro ns
    simp only [newCommands, recordedLines]
    by_cases hq : l ∈ quit_commands
    · rw [if_pos hq, if_pos hq]; simp
    · rw [if_neg hq, if_neg hq]
      by_cases hc : l = "cache"
      · rw [if_pos hc, if_pos hc]; exact ih _
      · rw [if_neg hc, if_neg hc]
        by_cases hr : l = "registry"
        · rw [if_pos hr, if_pos hr]; exact ih _
        · rw [if_neg hr, if_neg hr]
          rcases hl : reg.lookup l with _ | a
          · simp only [hl]
            simp [ih, execute_command_text]
          · rcases a with e | out <;> simp only [hl]
            · simp
            · exact ih _

/-- Every recorded line fell through all the earlier branches of the loop
body: it is not a quit token, not the `"cache"`/`"registry"` literal, and
not a registered action name. -/
theorem recordedLines_mem (reg : ActionRegistry) :
    ∀ (inputs : List String) (l : String), l ∈ recordedLines reg inputs →
      l ∉ quit_commands ∧ l ≠ "cache" ∧ l ≠ "registry" ∧ reg.lookup l = none := by
  intro inputs
  induction inputs with
  | nil => intro l h; simp [recordedLines] at h
  | cons x rest ih =>
    intro l h
    simp only [recordedLines] at h
    by_cases hq : x ∈ quit_commands
    · rw [if_pos hq] at h; simp at h
    · rw [if_neg hq] at h
      by_cases hc : x = "cache"
      · rw [if_pos hc] at h; exact ih _ h
      · rw [if_neg hc] at h
        by_cases hr : x = "registry"
        · rw [if_pos hr] at h; exact ih _ h
        · rw [if_neg hr] at h
          rcases hl : reg.lookup x with _ | a
          · rw [hl] at h
            rcases List.mem_cons.mp h with rfl | h'
            · exact ⟨hq, hc, hr, hl⟩
            · exact ih _ h'
          · rcases a with e | out <;> rw [hl] at h
            · simp at h
            · exact ih _ h

/-- The loop reaches `terminated` only by consuming a quit token. -/
theorem runLoop_terminated_quit {V NS : Type} (env : PyEnv V NS) (reg : ActionRegistry) :
    ∀ (inputs : List String) (st : LoopState V NS),
      (runLoop env reg st inputs).1 = SessionOutcome.terminated →
      ∃ l, l ∈ inputs ∧ l ∈ quit_commands := by
  intro inputs
  induction inputs with
  | nil => intro st h; simp [runLoop] at h
  | cons l rest ih =>
    intro st h
    by_cases hq : l ∈ quit_commands
    · exact ⟨l, List.mem_cons_self l rest, hq⟩
    · simp only [runLoop] at h
      rw [if_neg hq] at h
      have next : ∀ st' : LoopState V NS,
          (runLoop env reg st' rest).1 = SessionOutcome.terminated →
          ∃ l', l' ∈ l :: rest ∧ l' ∈ quit_commands := by
        intro st' h'
        obtain ⟨l', hl', hq'⟩ := ih st' h'
        exact ⟨l', List.mem_cons_of_mem l hl', hq'⟩
      by_cases hc : l = "cache"
      · rw [if_pos hc] at h; exact next _ h
      · rw [if_neg hc] at h
        by_cases hr : l = "registry"
        · rw [if_pos hr] at h; exact next _ h
        · rw [if_neg hr] at h
          rcases hl : reg.lookup l with _ | a
          · rw [hl] at h; exact next _ h
          · rcases a with e | out <;> rw [hl] at h
            · simp at h
            · exact next _ h

/-! ## Claim theorems -/

/-- C1: submitting a line equal to one of ":q", "quit", "exit" (compared
case-sensitively) terminates the console loop immediately, whatever the
prior state; the TERMINATED outcome is reachable only by submitting a quit
token (a raising registered action propagates as the distinct `aborted`
outcome, which is an exception rather than the loop's terminal transition);
and submitting ":Q" does not terminate the loop. -/
theorem quit_tokens_only_exit {V NS : Type} (env : PyEnv V NS) (reg : ActionRegistry)
    (st : LoopState V NS) :
    (∀ q rest, q ∈ quit_commands →
        runLoop env reg st (q :: rest) = (SessionOutcome.terminated, st))
    ∧ (∀ inputs, (runLoop env reg st inputs).1 = SessionOutcome.terminated →
        ∃ l, l ∈ inputs ∧ l ∈ quit_commands)
    ∧ (runLoop env reg st [":Q"]).1 ≠ SessionOutcome.terminated := by
  refine ⟨fun q rest hq => runLoop_quit_step env reg st q rest hq,
    fun inputs h => runLoop_terminated_quit env reg inputs st h, fun h => ?_⟩
  obtain ⟨l, hl, hq⟩ := runLoop_terminated_quit env reg [":Q"] st h
  simp only [List.mem_singleton] at hl
  subst hl
  exact absurd hq (by decide)

/-- Closed instance of C1: a quit token terminates at once with the state
untouched. -/
theorem quit_tokens_only_exit_witness :
    (":q" ∈ quit_commands) ∧
    runLoop testEnv [] testState [":q", "x"] = (SessionOutcome.terminated, testState) :=
  ⟨by decide, (quit_tokens_only_exit testEnv [] testState).1 ":q" ["x"] (by decide)⟩

/-- C2: when both expression evaluation and the fallback statement
execution raise, the command is marked failed, the error message is
printed, the command is appended to the cache with its final (failed)
validity, and the loop continues with the remaining submitted lines. -/
theorem failing_command_recovers {V NS : Type} (env : PyEnv V NS) (reg : ActionRegistry)
    (st : LoopState V NS) (l : String) (rest : List String) (e1 e2 : String)
    (hq : l ∉ quit_commands) (hc : l ≠ "cache") (hr : l ≠ "registry")
    (hl : reg.lookup l = none)
    (h1 : env.eval l st.ns = Except.error e1)
    (h2 : env.exec l st.ns = Except.error e2) :
    runLoop env reg st (l :: rest) =
      runLoop env reg
        { ns := st.ns, cache := st.cache.add { command := l, valid := some false },
          output := st.output ++ [e2] } rest :=
  runLoop_step_both_raise env reg st l rest e1 e2 hq hc hr hl h1 h2

/-- Closed instance of C2: a line that is neither a valid expression nor a
valid statement of the concrete oracle fails, prints the error, is cached
as failed, and the next line is still processed. -/
theorem failing_command_recovers_witness :
    testEnv.eval "bad bad" testState.ns = Except.error "invalid expression: bad bad" ∧
    testEnv.exec "bad bad" testState.ns = Except.error "name bad bad is not defined" ∧
    runLoop testEnv [] testState ["bad bad", "y=2"] =
      runLoop testEnv []
        { ns := testState.ns,
          cache := testState.cache.add { command := "bad bad", valid := some false },
          output := testState.output ++ ["name bad bad is not defined"] } ["y=2"] :=
  ⟨by rfl, by rfl,
    failing_command_recovers testEnv [] testState "bad bad" ["y=2"]
      "invalid expression: bad bad" "name bad bad is not defined"
      (by decide) (by decide) (by decide) (by rfl) (by rfl) (by rfl)⟩

/-- C3: a valid expression whose evaluation succeeds with a non-empty
(truthy) result is printed via `str`, and the command is recorded in the
cache marked succeeded. -/
theorem truthy_expression_prints {V NS : Type} (env : PyEnv V NS) (reg : ActionRegistry)
    (st : LoopState V NS) (l : String) (rest : List String) (v : V) (ns' : NS)
    (hq : l ∉ quit_commands) (hc : l ≠ "cache") (hr : l ≠ "registry")
    (hl : reg.lookup l = none)
    (he : env.eval l st.ns = Except.ok (v, ns')) (ht : env.truthy v = true) :
    runLoop env reg st (l :: rest) =
      runLoop env reg
        { ns := ns', cache := st.cache.add { command := l, valid := some true },
          output := st.output ++ [env.toStr v] } rest :=
  runLoop_step_eval_truthy env reg st l rest v ns' hq hc hr hl he ht

/-- Closed instance of C3: looking up a bound variable prints its value and
caches a succeeded command. -/
theorem truthy_expression_prints_witness :
    testEnv.eval "x" [("x", "7")] = Except.ok ("7", [("x", "7")]) ∧
    runLoop testEnv [] { ns := [("x", "7")], cache := { commands := [] }, output := [] }
        ["x"] =
      runLoop testEnv []
        { ns := [("x", "7")],
          cache := CommandCache.add { commands := [] } { command := "x", valid := some true },
          output := [] ++ ["7"] } [] :=
  ⟨by rfl,
    truthy_expression_prints testEnv []
      { ns := [("x", "7")], cache := { commands := [] }, output := [] } "x" [] "7"
      [("x", "7")] (by decide) (by decide) (by decide) (by rfl) (by rfl) (by rfl)⟩

/-- C9: a successful evaluation with a falsy result (empty string, zero,
None, ...) prints nothing, yet the command is still marked succeeded and
appended to the cache: printing is gated on truthiness, not on success. -/
theorem falsy_result_not_printed {V NS : Type} (env : PyEnv V NS) (reg : ActionRegistry)
    (st : LoopState V NS) (l : String) (rest : List String) (v : V) (ns' : NS)
    (hq : l ∉ quit_commands) (hc : l ≠ "cache") (hr : l ≠ "registry")
    (hl : reg.lookup l = none)
    (he : env.eval l st.ns = Except.ok (v, ns')) (ht : env.truthy v = false) :
    runLoop env reg st (l :: rest) =
      runLoop env reg
        { ns := ns', cache := st.cache.add { command := l, valid := some true },
          output := st.output } rest :=
  runLoop_step_eval_falsy env reg st l rest v ns' hq hc hr hl he ht

/-- Closed instance of C9: a variable bound to the empty string evaluates
successfully, prints nothing, and is cached as succeeded. -/
theorem falsy_result_not_printed_witness :
    testEnv.eval "z" [("z", "")] = Except.ok ("", [("z", "")]) ∧
    testEnv.truthy "" = false ∧
    runLoop testEnv [] { ns := [("z", "")], cache := { commands := [] }, output := [] }
        ["z"] =
      runLoop testEnv []
        { ns := [("z", "")],
          cache := CommandCache.add { commands := [] } { command := "z", valid := some true },
          output := [] } [] :=
  ⟨by rfl, by rfl,
    falsy_result_not_printed testEnv []
      { ns := [("z", "")], cache := { commands := [] }, output := [] } "z" [] ""
      [("z", "")] (by decide) (by decide) (by decide) (by rfl) (by rfl) (by rfl)⟩

/-- C10: a quit token is never recorded: the loop breaks before any command
is constructed or appended, so the cache is unchanged by the quit line, and
no command in a session's cache ever carries a quit token as its text. -/
theorem quit_not_recorded {V NS : Type} (env : PyEnv V NS) (reg : ActionRegistry) :
    (∀ (st : LoopState V NS) (q : String) (rest : List String), q ∈ quit_commands →
        (runLoop env reg st (q :: rest)).2.cache = st.cache)
    ∧ (∀ (ns : NS) (out inputs : List String) (c : Command),
        c ∈ (runLoop env reg { ns := ns, cache := { commands := [] }, output := out }
            inputs).2.cache.commands →
        c.command ∉ quit_commands) := by
  constructor
  · intro st q rest hq
    rw [runLoop_quit_step env reg st q rest hq]
  · intro ns out inputs c hc
    rw [runLoop_cache_eq env reg inputs
      { ns := ns, cache := { commands := [] }, output := out }] at hc
    simp only [List.nil_append] at hc
    have h2 : c.command ∈ recordedLines reg inputs := by
      rw [← newCommands_texts env reg inputs ns]
      exact List.mem_map_of_mem _ hc
    exact (recordedLines_mem reg inputs c.command h2).1

/-- Closed instance of C10: after a quit token, the cache of the run is the
starting cache. -/
theorem quit_not_recorded_witness :
    ("exit" ∈ quit_commands) ∧
    (runLoop testEnv [] testState ["exit"]).2.cache = testState.cache :=
  ⟨by decide, (quit_not_recorded testEnv []).1 testState "exit" [] (by decide)⟩

/-- C4: the cache is an append-only transcript: a run only ever appends to
the cache it starts with; starting from an empty cache the cached texts —
and hence the rendering, which lists them in storage order — are exactly
the recorded lines in submission order; and no recorded line is the
"cache" literal, the "registry" literal, or a registered action name. -/
theorem cache_is_ordered_transcript {V NS : Type} (env : PyEnv V NS) (reg : ActionRegistry) :
    (∀ (st : LoopState V NS) (inputs : List String), ∃ t,
        (runLoop env reg st inputs).2.cache.commands = st.cache.commands ++ t)
    ∧ (∀ (ns : NS) (out inputs : List String),
        ((runLoop env reg { ns := ns, cache := { commands := [] }, output := out }
            inputs).2.cache.commands).map Command.command = recordedLines reg inputs)
    ∧ (∀ (ns : NS) (out inputs : List String),
        CommandCache.render
            (runLoop env reg { ns := ns, cache := { commands := [] }, output := out }
              inputs).2.cache =
          "Currently stored commands:\n\t" ++
            String.intercalate "\n\t" (recordedLines reg inputs))
    ∧ (∀ (inputs : List String) (l : String), l ∈ recordedLines reg inputs →
        l ≠ "cache" ∧ l ≠ "registry" ∧ reg.lookup l = none) := by
  have hmap : ∀ (ns : NS) (out inputs : List String),
      ((runLoop env reg { ns := ns, cache := { commands := [] }, output := out }
          inputs).2.cache.commands).map Command.command = recordedLines reg inputs := by
    intro ns out inputs
    rw [runLoop_cache_eq env reg inputs
      { ns := ns, cache := { commands := [] }, output := out }]
    simp [newCommands_texts env reg inputs ns]
  refine ⟨?_, hmap, ?_, ?_⟩
  · intro st inputs
    exact ⟨_, runLoop_cache_eq env reg inputs st⟩
  · intro ns out inputs
    have h := hmap ns out inputs
    simp only [CommandCache.render]
    rw [show (fun c => c.command) = Command.command from rfl, h]
  · intro inputs l h
    exact (recordedLines_mem reg inputs l h).2

/-- Closed instance of C4: on a session mixing a literal, an expression and
a quit token, the cached texts are exactly the one recorded line. -/
theorem cache_is_ordered_transcript_witness :
    ((runLoop testEnv [] testState ["cache", "x=1", ":q", "y=2"]).2.cache.commands).map
        Command.command = recordedLines [] ["cache", "x=1", ":q", "y=2"] ∧
    recordedLines [] ["cache", "x=1", ":q", "y=2"] = ["x=1"] ∧
    ("x=1" ∈ recordedLines [] ["cache", "x=1", ":q", "y=2"]) ∧
    ("x=1" ≠ "cache" ∧ "x=1" ≠ "registry" ∧ List.lookup "x=1" ([] : ActionRegistry) = none) :=
  ⟨(cache_is_ordered_transcript testEnv []).2.1 testState.ns [] ["cache", "x=1", ":q", "y=2"],
    by decide, by decide,
    (cache_is_ordered_transcript testEnv []).2.2.2 ["cache", "x=1", ":q", "y=2"] "x=1"
      (by decide)⟩

/-- C8: the session namespace is created at session start as a copy of the
caller's globals, and `activate` leaves the caller's own bindings untouched
whatever happens in the session; a statement that mutates a binding is
executed against the session namespace, and the mutated namespace is the
one every later iteration uses — in particular submitting the bare mutated
name right after prints the new value. -/
theorem namespace_copy_and_persistence {V NS : Type} (env : PyEnv V NS) (reg : ActionRegistry) :
    (∀ (g : NS) (f : String) (n : Nat) (inputs : List String),
        (activate env reg g f n inputs).2.2 = g)
    ∧ (∀ (st : LoopState V NS) (s v : String) (rest : List String) (e : String)
        (ns2 ns3 : NS) (val : V),
        s ∉ quit_commands → s ≠ "cache" → s ≠ "registry" → reg.lookup s = none →
        v ∉ quit_commands → v ≠ "cache" → v ≠ "registry" → reg.lookup v = none →
        env.eval s st.ns = Except.error e → env.exec s st.ns = Except.ok ns2 →
        env.eval v ns2 = Except.ok (val, ns3) → env.truthy val = true →
        runLoop env reg st (s :: v :: rest) =
          runLoop env reg
            { ns := ns3,
              cache := (st.cache.add { command := s, valid := some true }).add
                { command := v, valid := some true },
              output := st.output ++ [env.toStr val] } rest) := by
  constructor
  · intro g f n inputs
    rfl
  · intro st s v rest e ns2 ns3 val hsq hsc hsr hsl hvq hvc hvr hvl h1 h2 h3 h4
    rw [runLoop_step_exec_ok env reg st s (v :: rest) e ns2 hsq hsc hsr hsl h1 h2]
    exact runLoop_step_eval_truthy env reg
      { ns := ns2, cache := st.cache.add { command := s, valid := some true },
        output := st.output } v rest val ns3 hvq hvc hvr hvl h3 h4

/-- Closed instance of C8: assigning `x=7` then submitting `x` prints the
new value, both commands are cached as succeeded, and `activate` hands the
caller's globals back unchanged. -/
theorem namespace_copy_and_persistence_witness :
    testEnv.exec "x=7" testState.ns = Except.ok [("x", "7")] ∧
    testEnv.eval "x" [("x", "7")] = Except.ok ("7", [("x", "7")]) ∧
    runLoop testEnv [] testState ["x=7", "x"] =
      runLoop testEnv []
        { ns := [("x", "7")],
          cache := (testState.cache.add { command := "x=7", valid := some true }).add
            { command := "x", valid := some true },
          output := testState.output ++ ["7"] } [] ∧
    (activate testEnv [] ([("a", "1")] : TestNS) "main.py" 3 ["x=7", ":q"]).2.2 =
      [("a", "1")] :=
  ⟨by rfl, by rfl,
    (namespace_copy_and_persistence testEnv []).2 testState "x=7" "x" []
      "invalid expression: x=7" [("x", "7")] [("x", "7")] "7"
      (by decide) (by decide) (by decide) (by rfl)
      (by decide) (by decide) (by decide) (by rfl)
      (by rfl) (by rfl) (by rfl) (by rfl),
    (namespace_copy_and_persistence testEnv []).1 [("a", "1")] "main.py" 3 ["x=7", ":q"]⟩

/-! ## Module-discovery claims -/

/-- Discovery appends exactly one entry per eligible file: the result of
`create_module_import_string` on its path, whether or not that is `none`. -/
theorem get_all_eq_map_eligible (dir_path : String) (tree : DirTree)
    (called_from_module : String) :
    get_all_import_strings dir_path tree called_from_module =
      (eligible_files dir_path tree called_from_module).map
        (create_module_import_string (basename (dirname called_from_module))) := by
  simp only [get_all_import_strings, eligible_files, List.map_flatMap, List.map_filterMap]
  congr 1
  funext rootFiles
  congr 1
  funext f
  by_cases h : rootFiles.1 ++ "/" ++ f = called_from_module
  · simp [h]
  · simp [h]

/-- C5: on the example tree with origin file `pkg/a.py`, discovery returns
the import paths for exactly `b` and `sub.c`: `venv/d.py` is pruned by the
ignore-set, `a.py` is skipped as the origin file, and `__init__.py` is
dropped by the double-underscore prefix rule. -/
theorem discovery_example_tree :
    get_all_import_strings "pkg" pkgTree "pkg/a.py" = [some "b", some "sub.c"] ∧
    "venv" ∈ ignore_directories ∧
    startsWithUnderscores "__init__.py" = true ∧
    basename (dirname "pkg/a.py") = "pkg" := by
  refine ⟨by decide, by decide, by decide, by decide⟩

/-- C6 counterexample: for a discovered file whose path does not contain
the package name, the sequence discovery returns is NOT free of entries for
it — `create_module_import_string`'s `None` is appended, so the file
yields an empty entry rather than being skipped. -/
theorem unresolvable_path_cex :
    get_all_import_strings "other" otherTree "pkg/a.py" = [none] ∧
    ([none] : List (Option String)) ≠ [] := by
  refine ⟨by decide, by decide⟩

/-- C6 (amended): for every discovered file whose path does not contain the
package name, no import string is computed (`create_module_import_string`
yields `none`) and no error is signaled, but discovery still appends that
`none` as the file's entry — one entry per eligible file — instead of
omitting the file from the returned sequence. -/
theorem unresolvable_path_none_entry :
    (∀ (package_name file_path : String),
        package_name ∉ (splitStrOn '/' file_path).map stripPy →
        create_module_import_string package_name file_path = none)
    ∧ (∀ (dir_path : String) (tree : DirTree) (called_from_module : String),
        get_all_import_strings dir_path tree called_from_module =
          (eligible_files dir_path tree called_from_module).map
            (create_module_import_string (basename (dirname called_from_module)))) := by
  constructor
  · intro pn fp h
    unfold create_module_import_string
    rw [if_neg h]
  · exact get_all_eq_map_eligible

/-- Closed instance of C6 (amended): the file `other/m.py` resolves to
no import string for package `pkg`. -/
theorem unresolvable_path_none_entry_witness :
    ("pkg" ∉ (splitStrOn '/' "other/m.py").map stripPy) ∧
    create_module_import_string "pkg" "other/m.py" = none :=
  ⟨by decide, unresolvable_path_none_entry.1 "pkg" "other/m.py" (by decide)⟩

/-- `indexOf`-and-`drop`, as the source computes it, picks out exactly the
segments after the first occurrence. -/
theorem indexOf_drop_eq_segmentsAfterFirst (pn : String) :
    ∀ l : List String,
      (if pn ∈ l then some (l.drop (l.indexOf pn + 1)) else none) =
        segmentsAfterFirst pn l := by
  intro l
  induction l with
  | nil => simp [segmentsAfterFirst]
  | cons s rest ih =>
    simp only [segmentsAfterFirst]
    by_cases hs : s = pn
    · subst hs
      rw [if_pos (List.mem_cons_self s rest), if_pos rfl]
      rw [List.indexOf_cons_self s rest]
      simp
    · rw [if_neg hs]
      by_cases hm : pn ∈ rest
      · rw [if_pos (List.mem_cons_of_mem s hm), ← ih, if_pos hm]
        rw [List.indexOf_cons_ne rest hs]
        simp
      · have hns : pn ∉ s :: rest := by
          intro h
          rcases List.mem_cons.mp h with h1 | h2
          · exact hs h1.symm
          · exact hm h2
        rw [if_neg hns, ← ih, if_neg hm]

/-- C7 (amended): for every included file, the dotted import path is
obtained by splitting the path, stripping the source suffix from every
segment, and joining the segments after the FIRST (outermost, not nearest)
occurrence of the package name with dots. -/
theorem import_string_uses_first_match (package_name module_path : String) :
    create_module_import_string package_name module_path =
      importStringSpecFirst package_name module_path := by
  unfold create_module_import_string importStringSpecFirst
  rw [← indexOf_drop_eq_segmentsAfterFirst package_name]
  by_cases h : package_name ∈ (splitStrOn '/' module_path).map stripPy
  · rw [if_pos h, if_pos h]
    rfl
  · rw [if_neg h, if_neg h]
    rfl

/-- C7 counterexample: when the package name occurs twice in the path, the
code resolves relative to the outermost occurrence, not the nearest
ancestor as the claim states. -/
theorem import_string_nearest_cex :
    create_module_import_string "pkg" "pkg/pkg/mod.py" = some "pkg.mod" ∧
    importStringSpecNearest "pkg" "pkg/pkg/mod.py" = some "mod" ∧
    create_module_import_string "pkg" "pkg/pkg/mod.py" ≠
      importStringSpecNearest "pkg" "pkg/pkg/mod.py" := by
  refine ⟨by decide, by decide, by decide⟩

end Crowler
